import Mathlib

/-!
Shallow embedding of the AIDigitalWorkforce frontend core:
chat transcript handling (two ChatWindow variants), the socket-service
listener registry, the task-detail event handlers, task-creation
validation, and the export filename sanitizer.

JavaScript strings are embedded as Lean `String`; a field that may be
absent (`undefined`) is embedded as `Option String`; JS string
truthiness (`s` is falsy iff it is the empty string or absent) is made
explicit at each use site.
-/

namespace AIDW

/-- A chat message, as in `frontend/src/types/index.ts` (`Message`). -/
structure Message where
  id : String
  task_id : String
  agent_role : String
  content : String
  created_at : String
deriving Repr, DecidableEq

/-- Payload of an `agent_message` socket event as consumed by the chat
windows: `task_id`, optionally `message` and/or `content`, `agent_role`,
`timestamp`.  Absent fields are `none`. -/
structure AgentMessageData where
  task_id : String
  message : Option String
  content : Option String
  agent_role : String
  timestamp : String
deriving Repr, DecidableEq

/-- JS `String.prototype.trim`: strip leading and trailing whitespace.
Embedded structurally over the character list (the builtin `String.trim` is
defined by well-founded recursion over byte positions, which blocks
evaluation inside proofs; this version agrees with it on the ASCII
whitespace the repository handles). -/
def jsTrim (s : String) : String :=
  String.mk (((s.data.dropWhile Char.isWhitespace).reverse.dropWhile
    Char.isWhitespace).reverse)

/-- JS `x || y` on a possibly-absent string `x`: yields `y` when `x` is
absent or empty (falsy), else the string held by `x`. -/
def jsOr (x : Option String) (y : String) : String :=
  match x with
  | none => y
  | some s => if s = "" then y else s

/-- Expression `data.message || data.content || ..` with an empty-string
default, from `ChatWindow.tsx` (`handleAgentMessage`, line 44). -/
def messageContentOf (data : AgentMessageData) : String :=
  jsOr data.message (jsOr data.content "")

/-- Truthiness of `msg.content && msg.content.trim()` used by the
initial-load filter in `ChatWindow.tsx` (line 25). -/
def contentNonBlank (s : String) : Bool :=
  s != "" && jsTrim s != ""

namespace ChatWindow

/-- Initial state of the MUI `ChatWindow` (`ChatWindow.tsx`, lines 24-26):
`initialMessages.filter(msg => msg.content && msg.content.trim())`. -/
def initState (initialMessages : List Message) : List Message :=
  initialMessages.filter (fun msg => contentNonBlank msg.content)

/-- The `Message` built by `handleAgentMessage` (`ChatWindow.tsx`,
lines 48-54); `now` stands for `Date.now().toString()`. -/
def mkEventMessage (now : String) (data : AgentMessageData) : Message :=
  { id := now
    task_id := data.task_id
    agent_role := data.agent_role
    content := messageContentOf data
    created_at := data.timestamp }

/-- Handler `handleAgentMessage` of the MUI `ChatWindow` (`ChatWindow.tsx`,
lines 41-58): on a matching `task_id`, append the message carried by the
event to the transcript only when its content is non-blank. -/
def handleAgentMessage (taskId now : String) (data : AgentMessageData)
    (messages : List Message) : List Message :=
  if data.task_id = taskId then
    if jsTrim (messageContentOf data) != "" then
      messages ++ [mkEventMessage now data]
    else messages
  else messages

/-- Folding a sequence of received `agent_message` events (each paired
with its `Date.now()` reading) through `handleAgentMessage`. -/
def processEvents (taskId : String) (events : List (String × AgentMessageData))
    (messages : List Message) : List Message :=
  events.foldl (fun msgs e => handleAgentMessage taskId e.1 e.2 msgs) messages

end ChatWindow

namespace ChatWindowAlt

/-- Initial state of the `part_011` `ChatWindow` variant (line 14):
`useState<Message[]>(initialMessages)` — no filtering. -/
def initState (initialMessages : List Message) : List Message :=
  initialMessages

/-- The `Message` built by `handleAgentMessage` of the `part_011` variant
(lines 31-37): `content: data.message`, with no emptiness check; an
absent `message` field is embedded as the empty string. -/
def mkEventMessage (now : String) (data : AgentMessageData) : Message :=
  { id := now
    task_id := data.task_id
    agent_role := data.agent_role
    content := data.message.getD ""
    created_at := data.timestamp }

/-- Handler `handleAgentMessage` of the `part_011` variant (lines 29-40): on a
matching `task_id`, append unconditionally. -/
def handleAgentMessage (taskId now : String) (data : AgentMessageData)
    (messages : List Message) : List Message :=
  if data.task_id = taskId then messages ++ [mkEventMessage now data]
  else messages

/-- Folding a sequence of received `agent_message` events through the
handler of the `part_011` variant. -/
def processEvents (taskId : String) (events : List (String × AgentMessageData))
    (messages : List Message) : List Message :=
  events.foldl (fun msgs e => handleAgentMessage taskId e.1 e.2 msgs) messages

end ChatWindowAlt

/-- The message an `agent_message` event contributes to the MUI
transcript, if accepted: the event must match the task and carry
non-blank content. -/
def acceptedMessage (taskId : String) (e : String × AgentMessageData) :
    Option Message :=
  if e.2.task_id = taskId ∧ jsTrim (messageContentOf e.2) ≠ "" then
    some (ChatWindow.mkEventMessage e.1 e.2)
  else none

/-- The message an `agent_message` event contributes to the `part_011`
transcript, if accepted: the event must match the task. -/
def acceptedMessageAlt (taskId : String) (e : String × AgentMessageData) :
    Option Message :=
  if e.2.task_id = taskId then some (ChatWindowAlt.mkEventMessage e.1 e.2)
  else none

/-- A task record, as in `frontend/src/types/index.ts` (`Task`); the
status literal is kept as a string, the nullable fields as `Option`. -/
structure Task where
  id : String
  title : String
  description : String
  status : String
  deliverable : Option String
  created_at : String
  updated_at : Option String
deriving Repr, DecidableEq

/-- Payload of a `task_completed` socket event as consumed by
`TaskDetail`. -/
structure TaskCompletedData where
  task_id : String
  deliverable : Option String
  timestamp : String
deriving Repr, DecidableEq

/-- Payload of a `task_started` socket event as consumed by
`TaskDetail`. -/
structure TaskStartedData where
  task_id : String
  timestamp : String
deriving Repr, DecidableEq

/-- Handler `handleTaskCompleted` from `TaskDetail` (`part_003`, lines 28-32):
on a matching `task_id`, spread the previous task and overwrite
`status` and `deliverable`; a `null` task stays `null`. -/
def handleTaskCompleted (id : String) (data : TaskCompletedData)
    (task : Option Task) : Option Task :=
  if data.task_id = id then
    match task with
    | some prev =>
        some { prev with status := "completed", deliverable := data.deliverable }
    | none => none
  else task

/-- Handler `handleTaskStarted` from `TaskDetail` (`part_003`, lines 34-38). -/
def handleTaskStarted (id : String) (data : TaskStartedData)
    (task : Option Task) : Option Task :=
  if data.task_id = id then
    match task with
    | some prev => some { prev with status := "in_progress" }
    | none => none
  else task

/-- Externally visible effects of the frontend operations: an emission
on the socket wire, an HTTP POST through the axios client, or a router
navigation. -/
inductive Action where
  | wireEmit (event : String) (payload : List (String × String))
  | apiPost (path : String) (payload : List (String × String))
  | navigate (path : String)
deriving Repr, DecidableEq

/-- State of the socket.io client held by `SocketService`: absent
(`this.socket === null`) or present with a connection flag. -/
structure SocketState where
  connected : Bool
deriving Repr, DecidableEq

/-- A registered listener callback, identified by reference; embedded as
a number. -/
abbrev Callback := Nat

/-- Fields of the `SocketService` (`part_006`, lines 70-72): the optional
socket and the `Map<string, Set<Function>>` of listeners.  The map is an
association list with unique keys; each `Set` is a duplicate-free list
in insertion order. -/
structure SocketService where
  socket : Option SocketState
  listeners : List (String × List Callback)
deriving Repr, DecidableEq

/-- Method `isConnected`, i.e. the optional-chained connected flag of
the socket with a false default (`part_006`,
lines 151-153). -/
def SocketService.isConnected (s : SocketService) : Bool :=
  match s.socket with
  | some sock => sock.connected
  | none => false

/-- Method `subscribeToTask` (`part_006`, lines 118-122): emits
`subscribe_task` on the wire only when the socket exists and is
connected; otherwise does nothing. -/
def SocketService.subscribeToTask (s : SocketService) (taskId : String) :
    List Action :=
  if s.isConnected then
    [Action.wireEmit "subscribe_task" [("task_id", taskId)]]
  else []

/-- Method `sendHumanIntervention` (`part_006`, lines 124-128): emits
`human_intervention` on the wire only when the socket exists and is
connected; otherwise does nothing. -/
def SocketService.sendHumanIntervention (s : SocketService)
    (taskId message : String) : List Action :=
  if s.isConnected then
    [Action.wireEmit "human_intervention" [("task_id", taskId), ("message", message)]]
  else []

/-- Lookup on the listeners association list, as the backing map does. -/
def listenersGet (l : List (String × List Callback)) (event : String) :
    Option (List Callback) :=
  (l.find? (fun p => p.1 = event)).map Prod.snd

/-- Overwrite the value stored under `event` (the backing `Map` has the
key, so every entry with that key receives the new value; keys are
unique in reachable states). -/
def listenersSet (l : List (String × List Callback)) (event : String)
    (v : List Callback) : List (String × List Callback) :=
  l.map (fun p => if p.1 = event then (p.1, v) else p)

/-- Method `on` (`part_006`, lines 130-135): create the set of the event
if missing,
then add the callback to it (a no-op when already present). -/
def SocketService.on (s : SocketService) (event : String) (cb : Callback) :
    SocketService :=
  match listenersGet s.listeners event with
  | some cbs =>
      { s with listeners :=
          listenersSet s.listeners event (if cb ∈ cbs then cbs else cbs ++ [cb]) }
  | none => { s with listeners := s.listeners ++ [(event, [cb])] }

/-- Method `off` (`part_006`, lines 137-141): when the event has an entry,
delete the callback from its set; otherwise do nothing. -/
def SocketService.off (s : SocketService) (event : String) (cb : Callback) :
    SocketService :=
  match listenersGet s.listeners event with
  | some cbs =>
      { s with listeners := listenersSet s.listeners event (cbs.filter (fun c => c ≠ cb)) }
  | none => s

/-- Method `emit` (`part_006`, lines 143-149): invoke every callback registered
for the event, in insertion order; the returned list is the sequence of
invocations.  The listener map is not modified. -/
def SocketService.emit (s : SocketService) (event : String) : List Callback :=
  match listenersGet s.listeners event with
  | some cbs => cbs
  | none => []

/-- Call `messageApi.create` (`part_006`, lines 48-55): POST `/messages/`
with the task id, content and agent role. -/
def messageApiCreate (taskId content agentRole : String) : Action :=
  Action.apiPost "/messages/"
    [("task_id", taskId), ("content", content), ("agent_role", agentRole)]

/-- Result of `handleSend`: the emitted effects and the next component
state (`messages`, `input`, `sending`). -/
structure SendOutcome where
  actions : List Action
  messages : List Message
  input : String
  sending : Bool
deriving Repr, DecidableEq

/-- Handler `handleSend` (`ChatWindow.tsx`, lines 67-102; identical in
`part_011`, lines 49-84), with the ambient `Date.now()` reading passed
as `now` and the result of `messageApi.create` as `apiResult`:
reject blank or in-flight input; otherwise append the optimistic human
message, call `sendHumanIntervention` and `messageApi.create`, then on
success substitute the saved message for the optimistic one and on
failure filter the optimistic message out. -/
def handleSend (svc : SocketService) (taskId now nowIso : String)
    (apiResult : Except String Message) (messages : List Message)
    (input : String) (sending : Bool) : SendOutcome :=
  if jsTrim input = "" ∨ sending then
    { actions := [], messages := messages, input := input, sending := sending }
  else
    let content := jsTrim input
    let tempId := "temp-" ++ now
    let optimistic : Message :=
      { id := tempId, task_id := taskId, agent_role := "human"
        content := content, created_at := nowIso }
    let afterOptimistic := messages ++ [optimistic]
    let wire := svc.sendHumanIntervention taskId content
    match apiResult with
    | .ok saved =>
        { actions := wire ++ [messageApiCreate taskId content "human"]
          messages := afterOptimistic.map (fun m => if m.id = tempId then saved else m)
          input := "", sending := false }
    | .error _ =>
        { actions := wire ++ [messageApiCreate taskId content "human"]
          messages := afterOptimistic.filter (fun m => m.id ≠ tempId)
          input := "", sending := false }

/-- The task-creation form data (`TaskCreate` in `types/index.ts`). -/
structure TaskCreate where
  title : String
  description : String
deriving Repr, DecidableEq

/-- Call `taskApi.create` (`part_006`, lines 15-18): POST `/tasks/` with the
form data. -/
def taskApiCreate (data : TaskCreate) : Action :=
  Action.apiPost "/tasks/" [("title", data.title), ("description", data.description)]

/-- Result of the task-creation `handleSubmit`: the error banner, the
emitted effects, and the loading flag. -/
structure SubmitOutcome where
  error : Option String
  actions : List Action
  loading : Bool
deriving Repr, DecidableEq

/-- Handler `handleSubmit` of `TaskCreation` (`part_010`, lines 16-34; identical
in `part_009`, lines 26-34): clear the error, reject when title or
description trims to empty before calling the API, otherwise create the
task and navigate to it; on API failure show
the response detail when present, else a generic failure banner. -/
def handleSubmit (formData : TaskCreate)
    (apiResult : Except (Option String) Task) : SubmitOutcome :=
  if jsTrim formData.title = "" ∨ jsTrim formData.description = "" then
    { error := some "Please fill in all fields", actions := [], loading := false }
  else
    match apiResult with
    | .ok task =>
        { error := none
          actions := [taskApiCreate formData, Action.navigate ("/task/" ++ task.id)]
          loading := false }
    | .error detail =>
        { error := some (jsOr detail "Failed to create task")
          actions := [taskApiCreate formData]
          loading := false }

/-- JS `String.prototype.toLowerCase`, character by character (the
sanitized titles it is applied to are ASCII, where this agrees with the
Unicode mapping). -/
def jsToLowerCase (s : String) : String :=
  String.mk (s.data.map Char.toLower)

/-- Sanitizer `title.replace(/[^a-z0-9]/gi, ..).toLowerCase()`, the
underscore being the replacement, from
`ExportModal.tsx` (lines 59 and 68): every character outside
`[A-Za-z0-9]` becomes an underscore, then the result is lowercased. -/
def sanitizeTitle (title : String) : String :=
  jsToLowerCase (String.mk (title.data.map (fun c => if c.isAlphanum then c else '_')))

/-- The filename passed to `pdf.save` in `handleExportPDF`
(`ExportModal.tsx`, line 59). -/
def exportPdfFilename (title : String) : String :=
  sanitizeTitle title ++ ".pdf"

/-- The download filename in `handleExportMarkdown`
(`ExportModal.tsx`, line 68). -/
def exportMarkdownFilename (title : String) : String :=
  sanitizeTitle title ++ ".md"

/-- A character allowed by the claimed filename pattern `[a-z0-9_]`. -/
def isFilenameChar (c : Char) : Bool :=
  c.isLower || c.isDigit || c = '_'

/-! ## Theorems -/

/-- The transcript contains no message whose content trims to empty. -/
def blankFree (msgs : List Message) : Bool :=
  msgs.all (fun m => jsTrim m.content != "")

theorem handleAgentMessage_blankFree (taskId now : String)
    (data : AgentMessageData) (msgs : List Message)
    (h : blankFree msgs = true) :
    blankFree (ChatWindow.handleAgentMessage taskId now data msgs) = true := by
  unfold ChatWindow.handleAgentMessage
  split
  · split
    · next hc =>
      simp only [blankFree, List.all_append, List.all_cons, List.all_nil] at h ⊢
      simp [h, ChatWindow.mkEventMessage, hc]
    · exact h
  · exact h

theorem initState_blankFree (initial : List Message) :
    blankFree (ChatWindow.initState initial) = true := by
  simp only [blankFree, ChatWindow.initState, List.all_eq_true]
  intro m hm
  rw [List.mem_filter] at hm
  have hnb := hm.2
  simp only [contentNonBlank, Bool.and_eq_true] at hnb
  exact hnb.2

theorem processEvents_blankFree (taskId : String)
    (events : List (String × AgentMessageData)) (msgs : List Message)
    (h : blankFree msgs = true) :
    blankFree (ChatWindow.processEvents taskId events msgs) = true := by
  induction events generalizing msgs with
  | nil => exact h
  | cons e es ih =>
      exact ih _ (handleAgentMessage_blankFree taskId e.1 e.2 msgs h)

/-- C1 (amended): in the filtering variant of the chat window
(`frontend/src/components/chat/ChatWindow.tsx`), every rendered
message — whether from the initial load or from any sequence of incoming
`agent_message` events — has content that is non-empty after trimming.
The `part_011` variant does not filter (see the counterexample). -/
theorem C1_rendered_messages_nonblank (taskId : String) (initial : List Message)
    (events : List (String × AgentMessageData)) :
    (ChatWindow.processEvents taskId events (ChatWindow.initState initial)).all
      (fun m => jsTrim m.content != "") = true :=
  processEvents_blankFree taskId events _ (initState_blankFree initial)

/-- C1 counterexample: the `part_011` chat-window variant renders an
incoming `agent_message` whose content trims to the empty string — with
no prior messages and one matching event carrying an empty `message`
field, the displayed transcript is exactly one message whose content is
`""`. -/
theorem C1_alt_variant_displays_blank :
    ChatWindowAlt.processEvents "t1"
      [("100", { task_id := "t1", message := some "", content := none,
                 agent_role := "researcher", timestamp := "ts" })]
      (ChatWindowAlt.initState [])
      = [{ id := "100", task_id := "t1", agent_role := "researcher",
           content := "", created_at := "ts" }]
    ∧ jsTrim "" = "" :=
  ⟨rfl, by decide⟩

theorem handleAgentMessage_eq_append (taskId now : String)
    (data : AgentMessageData) (msgs : List Message) :
    ChatWindow.handleAgentMessage taskId now data msgs
      = msgs ++ (acceptedMessage taskId (now, data)).toList := by
  unfold ChatWindow.handleAgentMessage acceptedMessage
  by_cases h1 : data.task_id = taskId
  · by_cases h2 : jsTrim (messageContentOf data) = ""
    · simp [h1, h2]
    · simp [h1, h2]
  · simp [h1]

theorem handleAgentMessageAlt_eq_append (taskId now : String)
    (data : AgentMessageData) (msgs : List Message) :
    ChatWindowAlt.handleAgentMessage taskId now data msgs
      = msgs ++ (acceptedMessageAlt taskId (now, data)).toList := by
  unfold ChatWindowAlt.handleAgentMessage acceptedMessageAlt
  by_cases h1 : data.task_id = taskId
  · simp [h1]
  · simp [h1]

theorem processEvents_eq_append (taskId : String)
    (events : List (String × AgentMessageData)) (msgs : List Message) :
    ChatWindow.processEvents taskId events msgs
      = msgs ++ events.filterMap (acceptedMessage taskId) := by
  induction events generalizing msgs with
  | nil => simp [ChatWindow.processEvents]
  | cons e es ih =>
      show ChatWindow.processEvents taskId es
        (ChatWindow.handleAgentMessage taskId e.1 e.2 msgs) = _
      rw [ih, handleAgentMessage_eq_append, List.filterMap_cons]
      cases h : acceptedMessage taskId (e.1, e.2) <;> simp [h]

theorem processEventsAlt_eq_append (taskId : String)
    (events : List (String × AgentMessageData)) (msgs : List Message) :
    ChatWindowAlt.processEvents taskId events msgs
      = msgs ++ events.filterMap (acceptedMessageAlt taskId) := by
  induction events generalizing msgs with
  | nil => simp [ChatWindowAlt.processEvents]
  | cons e es ih =>
      show ChatWindowAlt.processEvents taskId es
        (ChatWindowAlt.handleAgentMessage taskId e.1 e.2 msgs) = _
      rw [ih, handleAgentMessageAlt_eq_append, List.filterMap_cons]
      cases h : acceptedMessageAlt taskId (e.1, e.2) <;> simp [h]

/-- C2: in both chat-window variants, processing any sequence of
`agent_message` events yields exactly the initial transcript followed by
the messages of the accepted events in arrival order — each accepted event is
appended at the end, and no handler reorders or removes previously
displayed messages. -/
theorem C2_transcript_order (taskId : String) (initial msgs : List Message)
    (events : List (String × AgentMessageData)) :
    ChatWindow.processEvents taskId events (ChatWindow.initState initial)
      = ChatWindow.initState initial ++ events.filterMap (acceptedMessage taskId)
    ∧ ChatWindowAlt.processEvents taskId events msgs
      = msgs ++ events.filterMap (acceptedMessageAlt taskId) :=
  ⟨processEvents_eq_append taskId events _,
   processEventsAlt_eq_append taskId events msgs⟩

/-- C3: for every non-blank submitted input, `handleSend` always issues
the `POST /messages/` persistence call with the trimmed content and
agent role `human` — whatever the socket state and whatever the API
outcome — and, when the socket is connected, additionally emits the
`human_intervention` event on the wire with the task id and content. -/
theorem C3_interjection_both_channels (svc : SocketService)
    (taskId now nowIso : String) (apiResult : Except String Message)
    (messages : List Message) (input : String)
    (h : jsTrim input ≠ "") :
    messageApiCreate taskId (jsTrim input) "human"
        ∈ (handleSend svc taskId now nowIso apiResult messages input false).actions
    ∧ (svc.isConnected = true →
        Action.wireEmit "human_intervention"
            [("task_id", taskId), ("message", jsTrim input)]
          ∈ (handleSend svc taskId now nowIso apiResult messages input false).actions) := by
  constructor
  · cases apiResult <;>
      simp [handleSend, h, SocketService.sendHumanIntervention]
  · intro hc
    cases apiResult <;>
      simp [handleSend, h, SocketService.sendHumanIntervention, hc]

/-- Witness for C3 at a concrete disconnected-socket send whose API call
fails: the REST persistence action is still issued. -/
theorem C3_interjection_both_channels_witness :
    messageApiCreate "t1" (jsTrim " hi ") "human"
        ∈ (handleSend { socket := some { connected := true }, listeners := [] }
            "t1" "100" "iso" (Except.error "boom") [] " hi " false).actions
    ∧ (SocketService.isConnected
          { socket := some { connected := true }, listeners := [] } = true →
        Action.wireEmit "human_intervention"
            [("task_id", "t1"), ("message", jsTrim " hi ")]
          ∈ (handleSend { socket := some { connected := true }, listeners := [] }
              "t1" "100" "iso" (Except.error "boom") [] " hi " false).actions) :=
  C3_interjection_both_channels
    { socket := some { connected := true }, listeners := [] }
    "t1" "100" "iso" (Except.error "boom") [] " hi " (by decide)

/-- C4: when the persistence call of `handleSend` fails, the displayed
message list is restored to exactly its state before the send — the
optimistic human message is removed and nothing else is added or
dropped (given that the fresh temporary id collides with no existing
message id). -/
theorem C4_failed_send_restores_transcript (svc : SocketService)
    (taskId now nowIso err : String) (messages : List Message) (input : String)
    (h : jsTrim input ≠ "")
    (hfresh : ∀ m ∈ messages, m.id ≠ "temp-" ++ now) :
    (handleSend svc taskId now nowIso (Except.error err) messages input false).messages
      = messages := by
  unfold handleSend
  rw [if_neg (by simp [h])]
  simp only [List.filter_append]
  rw [List.filter_eq_self.mpr (by intro m hm; simpa using hfresh m hm)]
  simp

/-- Witness for C4: a concrete failed send leaves the one-message
transcript unchanged. -/
theorem C4_failed_send_restores_transcript_witness :
    (handleSend { socket := none, listeners := [] } "t1" "100" "iso"
        (Except.error "boom")
        [{ id := "m1", task_id := "t1", agent_role := "researcher",
           content := "c", created_at := "t" }]
        "hello" false).messages
      = [{ id := "m1", task_id := "t1", agent_role := "researcher",
           content := "c", created_at := "t" }] :=
  C4_failed_send_restores_transcript { socket := none, listeners := [] }
    "t1" "100" "iso" "boom"
    [{ id := "m1", task_id := "t1", agent_role := "researcher",
       content := "c", created_at := "t" }]
    "hello" (by decide) (by decide)

/-- C5: events are scoped to their task — an `agent_message`,
`task_completed` or `task_started` event whose `task_id` differs from
the task a component displays leaves the message list and
task record of that component completely unchanged, in every handler. -/
theorem C5_foreign_task_events_ignored (taskId now : String)
    (d : AgentMessageData) (dc : TaskCompletedData) (ds : TaskStartedData)
    (msgs : List Message) (t : Option Task)
    (hd : d.task_id ≠ taskId) (hc : dc.task_id ≠ taskId)
    (hs : ds.task_id ≠ taskId) :
    ChatWindow.handleAgentMessage taskId now d msgs = msgs
    ∧ ChatWindowAlt.handleAgentMessage taskId now d msgs = msgs
    ∧ handleTaskCompleted taskId dc t = t
    ∧ handleTaskStarted taskId ds t = t := by
  refine ⟨?_, ?_, ?_, ?_⟩ <;>
    simp [ChatWindow.handleAgentMessage, ChatWindowAlt.handleAgentMessage,
      handleTaskCompleted, handleTaskStarted, hd, hc, hs]

/-- Witness for C5 at concrete mismatching events. -/
theorem C5_foreign_task_events_ignored_witness :
    ChatWindow.handleAgentMessage "t1" "100"
        { task_id := "t2", message := some "x", content := none,
          agent_role := "writer", timestamp := "ts" } [] = []
    ∧ ChatWindowAlt.handleAgentMessage "t1" "100"
        { task_id := "t2", message := some "x", content := none,
          agent_role := "writer", timestamp := "ts" } [] = []
    ∧ handleTaskCompleted "t1"
        { task_id := "t2", deliverable := some "d", timestamp := "ts" } none = none
    ∧ handleTaskStarted "t1" { task_id := "t2", timestamp := "ts" } none = none :=
  C5_foreign_task_events_ignored "t1" "100"
    { task_id := "t2", message := some "x", content := none,
      agent_role := "writer", timestamp := "ts" }
    { task_id := "t2", deliverable := some "d", timestamp := "ts" }
    { task_id := "t2", timestamp := "ts" } [] none
    (by decide) (by decide) (by decide)

/-- C6: a `task_completed` event for the displayed task sets the status
of the task to `completed` and its deliverable to the deliverable of the
event,
leaves the id, title, description and both timestamps unchanged, and
maps a `null` task to `null`. -/
theorem C6_task_completed_frame (id : String) (data : TaskCompletedData)
    (t : Task) (h : data.task_id = id) :
    (∃ r, handleTaskCompleted id data (some t) = some r
        ∧ r.status = "completed" ∧ r.deliverable = data.deliverable
        ∧ r.id = t.id ∧ r.title = t.title ∧ r.description = t.description
        ∧ r.created_at = t.created_at ∧ r.updated_at = t.updated_at)
    ∧ handleTaskCompleted id data none = none := by
  refine ⟨⟨{ t with status := "completed", deliverable := data.deliverable },
    ?_⟩, ?_⟩ <;> simp [handleTaskCompleted, h]

/-- Witness for C6 at a concrete matching completion event. -/
theorem C6_task_completed_frame_witness :
    (∃ r, handleTaskCompleted "t1"
          { task_id := "t1", deliverable := some "report", timestamp := "ts" }
          (some { id := "t1", title := "T", description := "D",
                  status := "in_progress", deliverable := none,
                  created_at := "c", updated_at := some "u" }) = some r
        ∧ r.status = "completed" ∧ r.deliverable = some "report"
        ∧ r.id = "t1" ∧ r.title = "T" ∧ r.description = "D"
        ∧ r.created_at = "c" ∧ r.updated_at = some "u")
    ∧ handleTaskCompleted "t1"
        { task_id := "t1", deliverable := some "report", timestamp := "ts" }
        none = none :=
  C6_task_completed_frame "t1"
    { task_id := "t1", deliverable := some "report", timestamp := "ts" }
    { id := "t1", title := "T", description := "D", status := "in_progress",
      deliverable := none, created_at := "c", updated_at := some "u" }
    (by decide)

/-- C7: a task-creation submission whose title or description trims to
empty is rejected before any state change — no API action is issued and
the validation error banner is set. -/
theorem C7_blank_form_rejected (formData : TaskCreate)
    (apiResult : Except (Option String) Task)
    (h : jsTrim formData.title = "" ∨ jsTrim formData.description = "") :
    (handleSubmit formData apiResult).actions = []
    ∧ (handleSubmit formData apiResult).error
      = some "Please fill in all fields" := by
  unfold handleSubmit
  rw [if_pos h]
  exact ⟨rfl, rfl⟩

/-- Witness for C7: a blank title is rejected with no API call. -/
theorem C7_blank_form_rejected_witness :
    (handleSubmit { title := "  ", description := "desc" }
        (Except.ok { id := "t1", title := "x", description := "y",
                     status := "created", deliverable := none,
                     created_at := "c", updated_at := none })).actions = []
    ∧ (handleSubmit { title := "  ", description := "desc" }
        (Except.ok { id := "t1", title := "x", description := "y",
                     status := "created", deliverable := none,
                     created_at := "c", updated_at := none })).error
      = some "Please fill in all fields" :=
  C7_blank_form_rejected { title := "  ", description := "desc" }
    (Except.ok { id := "t1", title := "x", description := "y",
                 status := "created", deliverable := none,
                 created_at := "c", updated_at := none })
    (Or.inl (by decide))

theorem listenersGet_set (l : List (String × List Callback)) (e : String)
    (v : List Callback) :
    listenersGet (listenersSet l e v) e = (listenersGet l e).map (fun _ => v) := by
  induction l with
  | nil => rfl
  | cons p l ih =>
      by_cases hp : p.1 = e
      · simp [listenersGet, listenersSet, List.find?_cons, hp]
      · simp only [listenersGet, listenersSet, List.map_cons, if_neg hp,
          List.find?_cons] at ih ⊢
        rw [decide_eq_false hp]
        simpa [listenersSet] using ih

theorem listenersSet_set (l : List (String × List Callback)) (e : String)
    (v w : List Callback) :
    listenersSet (listenersSet l e v) e w = listenersSet l e w := by
  induction l with
  | nil => rfl
  | cons p l ih =>
      by_cases hp : p.1 = e
      · simpa [listenersSet, hp] using ih
      · simpa [listenersSet, hp] using ih

theorem filter_ne_idem (l : List Callback) (cb : Callback) :
    (l.filter (fun c => c ≠ cb)).filter (fun c => c ≠ cb)
      = l.filter (fun c => c ≠ cb) := by
  rw [List.filter_filter]
  simp

theorem off_off (s : SocketService) (e : String) (cb : Callback) :
    (s.off e cb).off e cb = s.off e cb := by
  unfold SocketService.off
  cases hg : listenersGet s.listeners e with
  | none => simp [hg]
  | some cbs =>
      have h1 : listenersGet
          (listenersSet s.listeners e (cbs.filter (fun c => c ≠ cb))) e
          = some (cbs.filter (fun c => c ≠ cb)) := by
        rw [listenersGet_set, hg]
        rfl
      simp only [h1, filter_ne_idem, listenersSet_set]

/-- C8: the listener registry is idempotent and no-op safe — for every
registry state, event name and callback (registered or not), removing
the callback twice with `off` equals removing it once; and `emit` on an
event with zero registered listeners invokes no callback (and never
modifies the registry, which `emit` only reads). -/
theorem C8_registry_off_idempotent_emit_noop (s : SocketService) (e : String)
    (cb : Callback) :
    (s.off e cb).off e cb = s.off e cb
    ∧ ((listenersGet s.listeners e = none ∨ listenersGet s.listeners e = some []) →
        s.emit e = []) := by
  refine ⟨off_off s e cb, ?_⟩
  rintro (h | h) <;> simp [SocketService.emit, h]

/-- Witness for C8: on a registry where callback `5` is registered for
`agent_message`, removing it twice equals removing it once; and
emitting `task_completed`, which has no listener entry, invokes
nothing. -/
theorem C8_registry_off_idempotent_emit_noop_witness :
    (SocketService.off (SocketService.off
        { socket := none, listeners := [("agent_message", [5, 7])] }
        "agent_message" 5) "agent_message" 5)
      = SocketService.off
        { socket := none, listeners := [("agent_message", [5, 7])] }
        "agent_message" 5
    ∧ listenersGet [("agent_message", [5, 7])] "task_completed" = none
    ∧ SocketService.emit
        { socket := none, listeners := [("agent_message", [5, 7])] }
        "task_completed" = [] :=
  ⟨(C8_registry_off_idempotent_emit_noop
      { socket := none, listeners := [("agent_message", [5, 7])] }
      "agent_message" 5).1,
   by decide,
   (C8_registry_off_idempotent_emit_noop
      { socket := none, listeners := [("agent_message", [5, 7])] }
      "task_completed" 3).2 (Or.inl (by decide))⟩

/-- C9: with no socket object or a disconnected socket,
`subscribeToTask` and `sendHumanIntervention` return without emitting
anything on the wire — the request is silently dropped. -/
theorem C9_disconnected_socket_noop (s : SocketService)
    (taskId message : String) (h : s.isConnected = false) :
    s.subscribeToTask taskId = [] ∧ s.sendHumanIntervention taskId message = [] := by
  simp [SocketService.subscribeToTask, SocketService.sendHumanIntervention, h]

/-- Witness for C9 with the socket absent. -/
theorem C9_disconnected_socket_noop_witness :
    SocketService.subscribeToTask { socket := none, listeners := [] } "t1" = []
    ∧ SocketService.sendHumanIntervention { socket := none, listeners := [] }
        "t1" "msg" = [] :=
  C9_disconnected_socket_noop { socket := none, listeners := [] }
    "t1" "msg" (by decide)

theorem char_toNat_ofNat_of_lt {n : Nat} (h : n < 55296) :
    (Char.ofNat n).toNat = n := by
  unfold Char.ofNat
  rw [dif_pos (Or.inl h)]
  simp [Char.ofNatAux, Char.toNat, UInt32.toNat]

theorem isUpper_toNat {c : Char} (h : c.isUpper = true) :
    65 ≤ c.toNat ∧ c.toNat ≤ 90 := by
  simp only [Char.isUpper, Bool.and_eq_true, decide_eq_true_eq, UInt32.le_def,
    BitVec.le_def] at h
  exact h

theorem isLower_toNat {c : Char} (h : c.isLower = true) :
    97 ≤ c.toNat ∧ c.toNat ≤ 122 := by
  simp only [Char.isLower, Bool.and_eq_true, decide_eq_true_eq, UInt32.le_def,
    BitVec.le_def] at h
  exact h

theorem isDigit_toNat {c : Char} (h : c.isDigit = true) :
    48 ≤ c.toNat ∧ c.toNat ≤ 57 := by
  simp only [Char.isDigit, Bool.and_eq_true, decide_eq_true_eq, UInt32.le_def,
    BitVec.le_def] at h
  exact h

theorem toNat_isLower {c : Char} (h1 : 97 ≤ c.toNat) (h2 : c.toNat ≤ 122) :
    c.isLower = true := by
  simp only [Char.isLower, Bool.and_eq_true, decide_eq_true_eq, UInt32.le_def,
    BitVec.le_def]
  exact ⟨h1, h2⟩

theorem isFilenameChar_toLower_sanitized (c : Char) :
    isFilenameChar (Char.toLower (if c.isAlphanum then c else '_')) = true := by
  by_cases h : c.isAlphanum = true
  · rw [if_pos h]
    simp only [Char.isAlphanum, Char.isAlpha, Bool.or_eq_true] at h
    unfold Char.toLower
    rcases h with (hu | hl) | hd
    · have hb := isUpper_toNat hu
      rw [if_pos ⟨hb.1, hb.2⟩]
      have ht : (Char.ofNat (c.toNat + 32)).toNat = c.toNat + 32 :=
        char_toNat_ofNat_of_lt (by omega)
      have hlow : (Char.ofNat (c.toNat + 32)).isLower = true :=
        toNat_isLower (by omega) (by omega)
      simp [isFilenameChar, hlow]
    · have hb := isLower_toNat hl
      rw [if_neg (by omega)]
      simp [isFilenameChar, hl]
    · have hb := isDigit_toNat hd
      rw [if_neg (by omega)]
      simp [isFilenameChar, hd]
  · rw [if_neg h]
    decide

/-- C10: for every title, the exported PDF and Markdown filenames are
the sanitized title (each non-alphanumeric character replaced by an
underscore, then lowercased) followed by `.pdf` respectively `.md`, and
every character of the sanitized title matches `[a-z0-9_]`. -/
theorem C10_export_filename_pattern (title : String) :
    exportPdfFilename title = sanitizeTitle title ++ ".pdf"
    ∧ exportMarkdownFilename title = sanitizeTitle title ++ ".md"
    ∧ (sanitizeTitle title).data.all isFilenameChar = true := by
  refine ⟨rfl, rfl, ?_⟩
  simp only [sanitizeTitle, jsToLowerCase, List.all_eq_true]
  intro c hc
  rw [List.mem_map] at hc
  obtain ⟨a, ha, rfl⟩ := hc
  rw [List.mem_map] at ha
  obtain ⟨b, _, rfl⟩ := ha
  exact isFilenameChar_toLower_sanitized b

end AIDW
